import Mathlib

/-!
Verification development for the orbital PS4 machine model
(`src/orbital/hardware/ps4.cpp`).

The single source file gives the machine constructor, destructor and the
`recover` boot pipeline.  The collaborating components (memory spaces,
the composite address space, the container parsers, `Machine::reset`) are
declared elsewhere in the repository; their behaviour is modelled from the
specification where needed, and each such definition is marked
`Modelled from the spec:`.

Bytes are natural numbers; memories are total functions `Nat → Byte`
restricted by explicit size bounds as in the source.
-/

namespace Orbital

abbrev Byte := Nat

/-- Modelled from the spec: error kinds of §7 (`OutOfBounds`, `OverlapError`,
`UnmappedAddress`, `EntryNotFound`, `UnsupportedImage`), extended with
`FileOpenError` (failure to open the input file) and `FormatError`
(a stream handed to a container reader that is not in that container's
format) for pipeline steps whose error channel the spec leaves opaque. -/
inductive OrbitalError
  | OutOfBounds
  | OverlapError
  | UnmappedAddress
  | EntryNotFound
  | UnsupportedImage
  | FileOpenError
  | FormatError
  deriving DecidableEq

/-! ## Constants (source `ps4.cpp` lines 32, 43-45, 54, 161) -/

/-- `constexpr U64 ram_size = 8_GB` (line 43). -/
def ram_size : Nat := 8 * 1024 * 1024 * 1024

/-- `constexpr U64 ram_size_below_4g = 0x80000000` (line 44). -/
def ram_size_below_4g : Nat := 0x80000000

/-- `constexpr U64 ram_size_above_4g = ram_size - ram_size_below_4g` (line 45). -/
def ram_size_above_4g : Nat := ram_size - ram_size_below_4g

/-- `4_GB`, the guest base of the high RAM window (line 51). -/
def GB4 : Nat := 4 * 1024 * 1024 * 1024

/-- `constexpr size_t ubios_size = 0x80000` (line 54). -/
def ubios_size : Nat := 0x80000

/-- Guest base of the UBIOS (firmware-shadow) window: `4_GB - ubios_size` (line 56). -/
def ubios_base : Nat := GB4 - ubios_size

/-- `constexpr U64 PS4_PUP_ENTRY_COREOS = 0x5` (line 32). -/
def PS4_PUP_ENTRY_COREOS : Nat := 0x5

/-- ELF loadable-segment program-header type, checked at line 161. -/
def PT_LOAD : Nat := 1

/-! ## Composite address space -/

/-- The three subspaces registered during construction (lines 48-56). -/
inductive SubspaceId
  | ramBelow4g
  | ramAbove4g
  | ubios
  deriving DecidableEq

/-- A registration in the composite guest-physical space:
guest base, size, and the registered subspace. -/
structure MapEntry where
  base : Nat
  size : Nat
  sub : SubspaceId
  deriving DecidableEq

/-- Offset of each alias into the RAM backing store (lines 48-49); the UBIOS
subspace is its own memory space and has no RAM offset. -/
def aliasOffset : SubspaceId → Nat
  | .ramBelow4g => 0
  | .ramAbove4g => ram_size_below_4g
  | .ubios => 0

/-- Two half-open ranges `[b1, b1+s1)` and `[b2, b2+s2)` intersect. -/
def rangesOverlap (b1 s1 b2 s2 : Nat) : Bool :=
  decide (b1 < b2 + s2) && decide (b2 < b1 + s1)

/-- Modelled from the spec: `addSubspace` registers a subspace at a guest base
and fails with `OverlapError` iff the new range intersects an existing one
(§4.1, §8 non-overlap invariant). -/
def addSubspace (l : List MapEntry) (e : MapEntry) : Except OrbitalError (List MapEntry) :=
  if l.any (fun e0 => rangesOverlap e0.base e0.size e.base e.size) then
    .error .OverlapError
  else
    .ok (l ++ [e])

/-- The three `addSubspace` registrations of the constructor, in source order
(lines 50, 51, 56). -/
def ps4LayoutE : Except OrbitalError (List MapEntry) := do
  let l1 ← addSubspace [] ⟨0, ram_size_below_4g, .ramBelow4g⟩
  let l2 ← addSubspace l1 ⟨GB4, ram_size_above_4g, .ramAbove4g⟩
  addSubspace l2 ⟨ubios_base, ubios_size, .ubios⟩

/-- The resulting guest-physical layout. -/
def ps4Layout : List MapEntry :=
  [⟨0, ram_size_below_4g, .ramBelow4g⟩,
   ⟨GB4, ram_size_above_4g, .ramAbove4g⟩,
   ⟨ubios_base, ubios_size, .ubios⟩]

/-- Modelled from the spec: resolution returns the first (hence, given the
non-overlap invariant, the unique) registered subspace whose range contains
the address, together with the local offset (§4.1). -/
def resolve (l : List MapEntry) (addr : Nat) : Option (SubspaceId × Nat) :=
  match l with
  | [] => none
  | e :: rest =>
    if e.base ≤ addr ∧ addr < e.base + e.size then some (e.sub, addr - e.base)
    else resolve rest addr

/-! ## Machine state -/

/-- Modelled from the spec: CPU/device run state, only as far as the claims
need it — construction leaves the devices in their constructed state, and
`reset` reinitializes them (§3 Machine, §4.3 step 1). -/
inductive RunState
  | constructed
  | wasReset
  deriving DecidableEq

/-- The machine state the claims are about: the composite layout, the RAM
backing store (8 GiB), the UBIOS backing store (0x80000 bytes), the created
CPU indices, and the abstract CPU/device run state. -/
structure PS4State where
  layout : List MapEntry
  ram : Nat → Byte
  ubios : Nat → Byte
  cpus : List Nat
  runState : RunState

/-- Read one guest-physical byte through the composite space: resolve, then
delegate to the owning subspace (`none` models `UnmappedAddress`). -/
def readByte (m : PS4State) (addr : Nat) : Option Byte :=
  match resolve m.layout addr with
  | some (.ramBelow4g, off) => some (m.ram (aliasOffset .ramBelow4g + off))
  | some (.ramAbove4g, off) => some (m.ram (aliasOffset .ramAbove4g + off))
  | some (.ubios, off) => some (m.ubios off)
  | none => none

/-- Single byte store into a memory function. -/
def store (m : Nat → Byte) (a : Nat) (v : Byte) : Nat → Byte :=
  fun x => if x = a then v else m x

/-- `memcpy`-style store of a byte list at an address. -/
def writeList (m : Nat → Byte) (a : Nat) (data : List Byte) : Nat → Byte :=
  match data with
  | [] => m
  | v :: rest => writeList (store m a v) (a + 1) rest

/-- Modelled from the spec: `write(addr, n, src)` on a memory space of size
`size` copies `n` bytes of the source buffer to `[addr, addr+n)`, failing with
`OutOfBounds` if the access leaves `[0, size)` (§3 Memory Space, §4.1).
Reading the source buffer past its end is undefined in the original and is
modelled as the byte 0 (`List.getD`); the bounds condition for that read is
stated separately (claim C9). -/
def spaceWrite (size : Nat) (mem : Nat → Byte) (addr n : Nat) (src : List Byte) :
    Except OrbitalError (Nat → Byte) :=
  if addr + n ≤ size then
    .ok (fun a => if addr ≤ a ∧ a < addr + n then src.getD (a - addr) 0 else mem a)
  else
    .error .OutOfBounds

/-! ## Construction (lines 38-119) -/

/-- `PS4MachineConfig` (the configuration fields the core uses). -/
structure PS4MachineConfig where
  cpu_count : Nat

/-- `PS4MachineConfig::PS4MachineConfig` sets `cpu_count = 8` (lines 34-36). -/
def defaultConfig : PS4MachineConfig := ⟨8⟩

/-- `uint8_t sha1_null16_preimage[20] = { 0xF8, 0x6F }` (line 117):
the remaining 18 array elements are zero-initialized. -/
def sha1_null16_preimage : List Byte :=
  [0xF8, 0x6F, 0, 0, 0, 0, 0, 0, 0, 0, 0, 0, 0, 0, 0, 0, 0, 0, 0, 0]

/-- The boot scratch-pad writes at `RAM:0x600000` (lines 98-118), in source
order: single-byte stores, then the 20-byte `memcpy` at offset 0x160. -/
def bootInit (ram0 : Nat → Byte) : Nat → Byte :=
  let b := 0x600000
  let m1 := store ram0 (b + 0x000) 6
  let m2 := store m1 (b + 0x006) 0x4
  let m3 := store m2 (b + 0x009) 0x2
  let m4 := store m3 (b + 0x00C) 1
  let m5 := store m4 (b + 0x00D) 0x82
  let m6 := store m5 (b + 0x1C8) 0x57
  let m7 := store m6 (b + 0x1C9) 0x35
  let m8 := store m7 (b + 0x1CA) 0x43
  let m9 := store m8 (b + 0x1CB) 0x32
  let m10 := store m9 (b + 0x1CC) 0x31
  writeList m10 (b + 0x160) sha1_null16_preimage

/-- `PS4Machine::PS4Machine` (lines 38-119), as far as the machine state the
claims are about: build the layout by the three `addSubspace` registrations,
create `cpu_count` CPUs, and apply the scratch-pad writes to RAM.  The initial
contents of the two backing stores are left as parameters (the memory-space
allocator is outside the given source). -/
def PS4Machine_construct (config : PS4MachineConfig) (initRam initUbios : Nat → Byte) :
    Except OrbitalError PS4State := do
  let layout ← ps4LayoutE
  .ok { layout := layout
        ram := bootInit initRam
        ubios := initUbios
        cpus := List.range config.cpu_count
        runState := .constructed }

/-- Modelled from the spec: `reset()` reinitializes CPU and device state
without destroying the address-space layout (§3 Machine, §4.3 step 1). -/
def reset (m : PS4State) : PS4State :=
  { m with runState := .wasReset }

/-! ## Firmware artifacts (spec §3; the container readers live outside the
given source and are modelled from the spec as opaque named-entry lookup) -/

/-- One SELF program header together with its program data:
`p_type`, `p_paddr`, and the raw bytes returned by `get_pdata`. -/
structure SelfSegment where
  p_type : Nat
  p_paddr : Nat
  pdata : List Byte

/-- Modelled from the spec: a byte stream, viewed through the container
readers — an opaque payload, an archive (BLS: name-keyed entries), an update
package (PUP: number-keyed entries), or a signed executable (SELF: an ordered
sequence of program headers with their data, whose header reports their
count) (§3 Firmware artifacts). -/
inductive FwStream
  | raw (bytes : List Byte)
  | bls (entries : List (String × FwStream))
  | pup (entries : List (Nat × FwStream))
  | self (segments : List SelfSegment)

/-- First entry with the given key in an association list. -/
def findEntry {α β : Type} [DecidableEq α] (key : α) : List (α × β) → Option β
  | [] => none
  | (k, v) :: rest => if key = k then some v else findEntry key rest

/-- Modelled from the spec: archive lookup by entry name; `EntryNotFound` when
absent (§4.2 steps 2 and 4); a stream that does not parse as an archive fails. -/
def blsGet (s : FwStream) (name : String) : Except OrbitalError FwStream :=
  match s with
  | .bls entries =>
    match findEntry name entries with
    | some v => .ok v
    | none => .error .EntryNotFound
  | _ => .error .FormatError

/-- Modelled from the spec: update-package lookup by numeric identifier;
`EntryNotFound` when absent (§4.2 step 3). -/
def pupGet (s : FwStream) (id : Nat) : Except OrbitalError FwStream :=
  match s with
  | .pup entries =>
    match findEntry id entries with
    | some v => .ok v
    | none => .error .EntryNotFound
  | _ => .error .FormatError

/-- Modelled from the spec: parse a stream as a Signed Executable, exposing
its ordered program headers with their data (§3, §4.2 step 5). -/
def selfParse (s : FwStream) : Except OrbitalError (List SelfSegment) :=
  match s with
  | .self segments => .ok segments
  | _ => .error .FormatError

/-- The container-narrowing chain of `recover` (lines 147-153): open the
file, look up `"PS4UPDATE1.PUP"` in the outer archive, look up entry
`PS4_PUP_ENTRY_COREOS` in the update package, and look up `"80010002"` in the
inner archive, yielding the kernel stream handed to the SELF reader.
The input is `none` when the file cannot be opened. -/
def innerKernelStream (file : Option FwStream) : Except OrbitalError FwStream :=
  match file with
  | none => .error .FileOpenError
  | some fs =>
    match blsGet fs "PS4UPDATE1.PUP" with
    | .error e => .error e
    | .ok bs =>
      match pupGet bs PS4_PUP_ENTRY_COREOS with
      | .error e => .error e
      | .ok coreos => blsGet coreos "80010002"

/-- The firmware pipeline of `recover` (lines 147-161): narrow to the kernel
stream, parse it as a SELF, require exactly one program header
(`assert(ehdr.e_phnum == 1)`, line 158) and that its type is loadable
(`assert(phdr.p_type == PT_LOAD)`, line 161) — both assertion failures are
reported as `UnsupportedImage` per the spec's error taxonomy — and return the
segment's physical address and program data. -/
def runPipeline (file : Option FwStream) : Except OrbitalError (Nat × List Byte) :=
  match innerKernelStream file with
  | .error e => .error e
  | .ok kernel_bs =>
    match selfParse kernel_bs with
    | .error e => .error e
    | .ok segments =>
      match segments with
      | [seg] =>
        if seg.p_type = PT_LOAD then .ok (seg.p_paddr, seg.pdata)
        else .error .UnsupportedImage
      | _ => .error .UnsupportedImage

/-! ## Kernel patching (lines 167-172) -/

/-- The patch block's guard: `if (0)` (line 168) — patches are disabled. -/
def patchesEnabled : Bool := false

/-- Little-endian 32-bit read of RAM at an address. -/
def read32 (m : Nat → Byte) (a : Nat) : Nat :=
  m a % 256 + 256 * (m (a + 1) % 256) + 65536 * (m (a + 2) % 256) +
    16777216 * (m (a + 3) % 256)

/-- Little-endian 32-bit write of RAM at an address. -/
def write32 (m : Nat → Byte) (a : Nat) (v : Nat) : Nat → Byte :=
  fun x =>
    if x = a then v % 256
    else if x = a + 1 then v / 256 % 256
    else if x = a + 2 then v / 65536 % 256
    else if x = a + 3 then v / 16777216 % 256
    else m x

/-- The 5.00 patch body (line 171): OR `0x800` into the 32-bit value at
segment offset `0x3B341E` of the loaded image. -/
def applyPatch (s : PS4State) (paddr : Nat) : PS4State :=
  { s with
    ram := write32 s.ram (paddr + 0x3B341E)
      (Nat.lor (read32 s.ram (paddr + 0x3B341E)) 0x800) }

/-! ## recover (lines 142-176) -/

/-- `PS4Machine::recover` (lines 142-176): reset the machine, run the
firmware pipeline, then write the segment into RAM at `phdr.p_paddr`
(line 164) and `space_ubios->size()` bytes of it at offset 0 of the UBIOS
space (line 165), then the (disabled) patch block.  The returned pair is the
machine state together with the reported error, if any; a failure leaves the
state as it was when the failing step ran. -/
def recover (m : PS4State) (file : Option FwStream) : PS4State × Option OrbitalError :=
  let m1 := reset m
  match runPipeline file with
  | .error e => (m1, some e)
  | .ok (paddr, pdata) =>
    match spaceWrite ram_size m1.ram paddr pdata.length pdata with
    | .error e => (m1, some e)
    | .ok ram2 =>
      let m2 := { m1 with ram := ram2 }
      match spaceWrite ubios_size m2.ubios 0 ubios_size pdata with
      | .error e => (m2, some e)
      | .ok ub3 =>
        let m3 := { m2 with ubios := ub3 }
        let m4 := if patchesEnabled then applyPatch m3 paddr else m3
        (m4, none)

/-! ## Construction and teardown order (lines 38-140) -/

/-- The components the constructor creates and/or the destructor deletes. -/
inductive Component
  | vm
  | space_ram
  | space_ram_below_4g
  | space_ram_above_4g
  | space_ubios
  | cpu_devices
  | lvp_host
  | lvp_rc
  | lvp_gc
  | lvp_hdac
  | lvp_iommu
  | lvp_rp
  | lvp_fnc0
  | lvp_fnc1
  | lvp_fnc2
  | lvp_fnc3
  | lvp_fnc4
  | lvp_fnc5
  | aeolia_acpi
  | aeolia_gbe
  | aeolia_ahci
  | aeolia_sdhci
  | aeolia_pcie
  | aeolia_dmac
  | aeolia_mem
  | aeolia_xhci
  deriving DecidableEq

/-- Order in which `PS4Machine::PS4Machine` creates components (lines 38-93). -/
def constructionOrder : List Component :=
  [.vm, .space_ram, .space_ram_below_4g, .space_ram_above_4g, .space_ubios,
   .cpu_devices, .lvp_host, .lvp_rc, .lvp_gc, .lvp_hdac, .lvp_iommu, .lvp_rp,
   .lvp_fnc0, .lvp_fnc1, .lvp_fnc2, .lvp_fnc3, .lvp_fnc4, .lvp_fnc5,
   .aeolia_acpi, .aeolia_gbe, .aeolia_ahci, .aeolia_sdhci, .aeolia_pcie,
   .aeolia_dmac, .aeolia_mem, .aeolia_xhci]

/-- Order in which `PS4Machine::~PS4Machine` deletes components
(lines 121-140). -/
def destructionOrder : List Component :=
  [.aeolia_acpi, .aeolia_gbe, .aeolia_ahci, .aeolia_sdhci, .aeolia_pcie,
   .aeolia_dmac, .aeolia_mem, .aeolia_xhci, .lvp_host,
   .space_ubios, .space_ram_above_4g, .space_ram_below_4g, .space_ram]

/-- The address-space objects among the components. -/
def isAddressSpace : Component → Bool
  | .space_ram => true
  | .space_ram_below_4g => true
  | .space_ram_above_4g => true
  | .space_ubios => true
  | _ => false

/-- The Aeolia devices among the components. -/
def isAeolia : Component → Bool
  | .aeolia_acpi => true
  | .aeolia_gbe => true
  | .aeolia_ahci => true
  | .aeolia_sdhci => true
  | .aeolia_pcie => true
  | .aeolia_dmac => true
  | .aeolia_mem => true
  | .aeolia_xhci => true
  | _ => false

/-! ## Helper lemmas -/

/-- A machine state constructed from the default configuration over zeroed
backing stores, used as a concrete evaluation point. -/
def constructedState : PS4State :=
  { layout := ps4Layout
    ram := bootInit (fun _ => 0)
    ubios := fun _ => 0
    cpus := List.range 8
    runState := .constructed }

theorem reset_ram (m : PS4State) : (reset m).ram = m.ram := rfl

theorem reset_layout (m : PS4State) : (reset m).layout = m.layout := rfl

/-- On pipeline success with the RAM write in bounds, `recover` reduces to
the two memory writes on the reset state. -/
theorem recover_ok_eq (m : PS4State) (file : Option FwStream) (paddr : Nat)
    (pdata : List Byte)
    (hpipe : runPipeline file = .ok (paddr, pdata))
    (hfit : paddr + pdata.length ≤ ram_size) :
    recover m file =
      ({ layout := m.layout
         ram := fun a =>
           if paddr ≤ a ∧ a < paddr + pdata.length then pdata.getD (a - paddr) 0
           else m.ram a
         ubios := fun a =>
           if 0 ≤ a ∧ a < 0 + ubios_size then pdata.getD (a - 0) 0
           else m.ubios a
         cpus := m.cpus
         runState := .wasReset }, none) := by
  unfold recover
  rw [hpipe]
  simp only [spaceWrite, reset]
  rw [if_pos hfit, if_pos (by omega : 0 + ubios_size ≤ ubios_size)]
  simp [patchesEnabled]

theorem resolve_below (a : Nat) (h : a < ram_size_below_4g) :
    resolve ps4Layout a = some (.ramBelow4g, a) := by
  simp only [ps4Layout, resolve]
  rw [if_pos ⟨Nat.zero_le a, by omega⟩]
  simp

theorem resolve_ubios_off (i : Nat) (h : i < ubios_size) :
    resolve ps4Layout (ubios_base + i) = some (.ubios, i) := by
  have h1 : ¬ (0 ≤ ubios_base + i ∧ ubios_base + i < 0 + ram_size_below_4g) := by
    simp only [ubios_base, ubios_size, GB4, ram_size_below_4g] at *
    omega
  have h2 : ¬ (GB4 ≤ ubios_base + i ∧ ubios_base + i < GB4 + ram_size_above_4g) := by
    simp only [ubios_base, ubios_size, GB4, ram_size_above_4g, ram_size,
      ram_size_below_4g] at *
    omega
  have h3 : ubios_base ≤ ubios_base + i ∧ ubios_base + i < ubios_base + ubios_size := by
    omega
  simp only [ps4Layout, resolve]
  rw [if_neg h1, if_neg h2, if_pos h3]
  simp

/-! ## Claim theorems -/

/-- C3: construction registers exactly three subspaces into the composite
guest-physical space — the below-4GB RAM window `[0, 0x80000000)` aliasing
backing bytes `[0, 0x80000000)`, the above-4GB RAM window
`[0x100000000, 0x280000000)` aliasing backing bytes `[0x80000000, 0x200000000)`
of the same 8GB backing store, and the firmware-shadow window of size
`0x80000` at base `0x100000000 - 0x80000`; the three guest ranges are
pairwise disjoint and all three `addSubspace` registrations succeed. -/
theorem construction_registers_three_disjoint_subspaces :
    ps4LayoutE = .ok ps4Layout ∧
    ps4Layout = [⟨0, 0x80000000, .ramBelow4g⟩,
                 ⟨0x100000000, 0x180000000, .ramAbove4g⟩,
                 ⟨0xFFF80000, 0x80000, .ubios⟩] ∧
    ram_size = 0x200000000 ∧
    aliasOffset .ramBelow4g = 0 ∧
    aliasOffset .ramBelow4g + ram_size_below_4g = 0x80000000 ∧
    aliasOffset .ramAbove4g = 0x80000000 ∧
    aliasOffset .ramAbove4g + ram_size_above_4g = 0x200000000 ∧
    ubios_base = GB4 - 0x80000 ∧
    rangesOverlap 0 ram_size_below_4g GB4 ram_size_above_4g = false ∧
    rangesOverlap 0 ram_size_below_4g ubios_base ubios_size = false ∧
    rangesOverlap GB4 ram_size_above_4g ubios_base ubios_size = false :=
  ⟨rfl, rfl, rfl, rfl, rfl, rfl, rfl, rfl, rfl, rfl, rfl⟩

/-- C5: immediately after machine construction (before any `recover`), the
scratch-pad region at RAM offset `0x600000` holds exactly its configured
literal byte values — offsets 0x000, 0x006, 0x009, 0x00C, 0x00D, the
five identifier bytes at 0x1C8..0x1CC, and the 20-byte hash preimage
starting `0xF8 0x6F` at offset 0x160 — for every configuration and initial
store contents, regardless of CPU count. -/
theorem scratchpad_initialized_at_construction
    (config : PS4MachineConfig) (initRam initUbios : Nat → Byte) (m : PS4State)
    (h : PS4Machine_construct config initRam initUbios = .ok m) :
    m.ram 0x600000 = 6 ∧ m.ram 0x600006 = 0x4 ∧ m.ram 0x600009 = 0x2 ∧
    m.ram 0x60000C = 1 ∧ m.ram 0x60000D = 0x82 ∧
    m.ram 0x6001C8 = 0x57 ∧ m.ram 0x6001C9 = 0x35 ∧ m.ram 0x6001CA = 0x43 ∧
    m.ram 0x6001CB = 0x32 ∧ m.ram 0x6001CC = 0x31 ∧
    sha1_null16_preimage.length = 20 ∧
    sha1_null16_preimage.getD 0 0 = 0xF8 ∧ sha1_null16_preimage.getD 1 0 = 0x6F ∧
    (∀ i, i < 20 → m.ram (0x600160 + i) = sha1_null16_preimage.getD i 0) := by
  have h0 : PS4Machine_construct config initRam initUbios =
      .ok { layout := ps4Layout
            ram := bootInit initRam
            ubios := initUbios
            cpus := List.range config.cpu_count
            runState := .constructed } := rfl
  rw [h0] at h
  injection h with h2
  subst h2
  refine ⟨rfl, rfl, rfl, rfl, rfl, rfl, rfl, rfl, rfl, rfl, rfl, rfl, rfl, ?_⟩
  intro i hi
  interval_cases i <;> rfl

/-- Witness for C5 at the default configuration over zeroed stores. -/
theorem scratchpad_initialized_witness :
    PS4Machine_construct defaultConfig (fun _ => 0) (fun _ => 0) = .ok constructedState ∧
    constructedState.ram 0x600000 = 6 ∧ constructedState.ram 0x6001C8 = 0x57 := by
  refine ⟨rfl, ?_, ?_⟩
  · exact (scratchpad_initialized_at_construction defaultConfig (fun _ => 0)
      (fun _ => 0) constructedState rfl).1
  · exact (scratchpad_initialized_at_construction defaultConfig (fun _ => 0)
      (fun _ => 0) constructedState rfl).2.2.2.2.2.1

/-- C6 counterexample: teardown does not release the destroyed components in
the strict reverse of their construction order — the Aeolia devices are
deleted in construction order (`aeolia_acpi` first), not reversed. -/
theorem teardown_not_strict_reverse_of_construction :
    ¬ (destructionOrder =
        (constructionOrder.filter (fun c => decide (c ∈ destructionOrder))).reverse) := by
  decide

/-- C6 amended: teardown releases every destroyed device before every
address-space object, and releases the address spaces in strict reverse of
their construction order; the Aeolia devices themselves are released in
their construction order, not reversed. -/
theorem teardown_devices_before_address_spaces :
    destructionOrder =
      destructionOrder.filter (fun c => ! isAddressSpace c) ++
        destructionOrder.filter (fun c => isAddressSpace c) ∧
    destructionOrder.filter (fun c => isAddressSpace c) =
      (constructionOrder.filter (fun c => isAddressSpace c)).reverse ∧
    destructionOrder.filter (fun c => isAeolia c) =
      constructionOrder.filter (fun c => isAeolia c) := by
  decide

/-- C7: every `recover` resets the machine first — whatever the pipeline
outcome, the resulting CPU/device state is the reset state — and neither
`reset` nor any later step of `recover` changes the composite address-space
layout. -/
theorem recover_resets_first_and_preserves_layout (m : PS4State) (file : Option FwStream) :
    (recover m file).1.layout = m.layout ∧
    (reset m).layout = m.layout ∧
    (recover m file).1.runState = RunState.wasReset ∧
    (reset m).runState = RunState.wasReset := by
  refine ⟨?_, rfl, ?_, rfl⟩ <;>
  · unfold recover
    simp only [patchesEnabled, if_neg (by decide : ¬ (false = true))]
    split
    · rfl
    · split
      · rfl
      · split
        · rfl
        · rfl

/-- C10: `recover` is atomic with respect to guest memory on pipeline
failure — if any pipeline step fails, the machine state is exactly the state
immediately after `reset`, so RAM and the firmware-shadow store are
untouched. -/
theorem recover_atomic_on_pipeline_failure (m : PS4State) (file : Option FwStream)
    (e : OrbitalError) (hpipe : runPipeline file = .error e) :
    recover m file = (reset m, some e) ∧
    (recover m file).1.ram = (reset m).ram ∧
    (recover m file).1.ubios = (reset m).ubios := by
  have h1 : recover m file = (reset m, some e) := by
    unfold recover
    rw [hpipe]
  exact ⟨h1, by rw [h1], by rw [h1]⟩

/-- Witness for C10: an unopenable file fails the first pipeline step and
leaves the machine in the reset state. -/
theorem recover_atomic_witness :
    runPipeline (none : Option FwStream) = .error .FileOpenError ∧
    recover constructedState none = (reset constructedState, some .FileOpenError) :=
  ⟨rfl, (recover_atomic_on_pipeline_failure constructedState none .FileOpenError rfl).1⟩

theorem readByte_below (m' : PS4State) (h : m'.layout = ps4Layout) (a : Nat)
    (ha : a < ram_size_below_4g) : readByte m' a = some (m'.ram a) := by
  unfold readByte
  rw [h, resolve_below a ha]
  simp [aliasOffset]

theorem readByte_ubios (m' : PS4State) (h : m'.layout = ps4Layout) (i : Nat)
    (hi : i < ubios_size) : readByte m' (ubios_base + i) = some (m'.ubios i) := by
  unfold readByte
  rw [h, resolve_ubios_off i hi]

/-- C1: after a successful `recover` on a well-formed single-segment fixture
(loadable segment targeting the below-4GB RAM window and at least as long as
the shadow region), the segment's bytes are readable through the composite
space at the segment's declared physical address, the segment's leading bytes
sit at offset 0 of the firmware-shadow window, and over the shadow window's
whole extent the two reads agree with each other and with the fixture's
payload. -/
theorem recover_dual_write
    (m : PS4State) (file : Option FwStream) (paddr : Nat) (pdata : List Byte)
    (hlayout : m.layout = ps4Layout)
    (hpipe : runPipeline file = .ok (paddr, pdata))
    (hfit : paddr + pdata.length ≤ ram_size_below_4g)
    (hlen : ubios_size ≤ pdata.length) :
    (recover m file).2 = none ∧
    (∀ i, i < pdata.length →
      readByte (recover m file).1 (paddr + i) = some (pdata.getD i 0)) ∧
    (∀ i, i < ubios_size →
      readByte (recover m file).1 (ubios_base + i) = some (pdata.getD i 0)) ∧
    (∀ i, i < ubios_size →
      readByte (recover m file).1 (paddr + i) =
        readByte (recover m file).1 (ubios_base + i)) := by
  have hfit' : paddr + pdata.length ≤ ram_size := by
    simp only [ram_size_below_4g, ram_size] at *
    omega
  have he := recover_ok_eq m file paddr pdata hpipe hfit'
  have hram : ∀ i, i < pdata.length →
      readByte (recover m file).1 (paddr + i) = some (pdata.getD i 0) := by
    intro i hi
    rw [he, readByte_below]
    · show some (if paddr ≤ paddr + i ∧ paddr + i < paddr + pdata.length then
        pdata.getD (paddr + i - paddr) 0 else m.ram (paddr + i)) = _
      rw [if_pos ⟨Nat.le_add_right _ _, by omega⟩, Nat.add_sub_cancel_left]
    · exact hlayout
    · omega
  have hub : ∀ i, i < ubios_size →
      readByte (recover m file).1 (ubios_base + i) = some (pdata.getD i 0) := by
    intro i hi
    rw [he, readByte_ubios]
    · show some (if 0 ≤ i ∧ i < 0 + ubios_size then pdata.getD (i - 0) 0
        else m.ubios i) = _
      rw [if_pos ⟨Nat.zero_le i, by omega⟩, Nat.sub_zero]
    · exact hlayout
    · exact hi
  refine ⟨by rw [he], hram, hub, ?_⟩
  intro i hi
  rw [hram i (by omega), hub i hi]

/-- A well-formed single-segment firmware fixture whose segment is exactly
as long as the firmware-shadow region, loaded at physical address
`0x200000`. -/
def fixtureC1 : FwStream :=
  .bls [("PS4UPDATE1.PUP",
    .pup [(PS4_PUP_ENTRY_COREOS,
      .bls [("80010002",
        .self [⟨PT_LOAD, 0x200000, List.replicate 0x80000 0xAB⟩])])])]

/-- Witness for C1 on a concrete fixture. -/
theorem recover_dual_write_witness :
    constructedState.layout = ps4Layout ∧
    runPipeline (some fixtureC1) = .ok (0x200000, List.replicate 0x80000 0xAB) ∧
    0x200000 + (List.replicate 0x80000 (0xAB : Byte)).length ≤ ram_size_below_4g ∧
    ubios_size ≤ (List.replicate 0x80000 (0xAB : Byte)).length ∧
    (∀ i, i < ubios_size →
      readByte (recover constructedState (some fixtureC1)).1 (0x200000 + i) =
        readByte (recover constructedState (some fixtureC1)).1 (ubios_base + i)) :=
  ⟨rfl, rfl, by rw [List.length_replicate]; decide,
    by rw [List.length_replicate]; decide,
    (recover_dual_write constructedState (some fixtureC1) 0x200000
      (List.replicate 0x80000 0xAB) rfl rfl
      (by rw [List.length_replicate]; decide)
      (by rw [List.length_replicate]; decide)).2.2.2⟩

/-- C2: whenever the pipeline reaches the innermost signed executable, a
program-header count different from exactly one makes `recover`'s pipeline
fail with `UnsupportedImage` (never silently picking a segment), and so does
a single program header whose type is not loadable. -/
theorem pipeline_single_segment_enforcement
    (file : Option FwStream) (ks : FwStream) (segments : List SelfSegment)
    (hks : innerKernelStream file = .ok ks)
    (hself : selfParse ks = .ok segments) :
    (segments.length ≠ 1 → runPipeline file = .error .UnsupportedImage) ∧
    (∀ seg, segments = [seg] → seg.p_type ≠ PT_LOAD →
      runPipeline file = .error .UnsupportedImage) := by
  constructor
  · intro hlen
    unfold runPipeline
    rw [hks]
    dsimp only
    rw [hself]
    dsimp only
    rcases segments with _ | ⟨a, _ | ⟨b, t⟩⟩
    · rfl
    · exact absurd rfl hlen
    · rfl
  · intro seg hseg htype
    subst hseg
    unfold runPipeline
    rw [hks]
    dsimp only
    rw [hself]
    dsimp only
    rw [if_neg htype]

/-- A fixture whose signed executable has two program headers. -/
def segsC2 : List SelfSegment := [⟨PT_LOAD, 0, [0]⟩, ⟨PT_LOAD, 0, [1]⟩]

/-- The two-segment fixture itself. -/
def fixtureC2 : FwStream :=
  .bls [("PS4UPDATE1.PUP",
    .pup [(PS4_PUP_ENTRY_COREOS, .bls [("80010002", .self segsC2)])])]

/-- Witness for C2: the two-segment fixture fails with `UnsupportedImage`. -/
theorem pipeline_single_segment_witness :
    innerKernelStream (some fixtureC2) = .ok (.self segsC2) ∧
    selfParse (.self segsC2) = .ok segsC2 ∧
    segsC2.length ≠ 1 ∧
    runPipeline (some fixtureC2) = .error .UnsupportedImage :=
  ⟨rfl, rfl, by decide,
    (pipeline_single_segment_enforcement (some fixtureC2) (.self segsC2) segsC2
      rfl rfl).1 (by decide)⟩

theorem runPipeline_inner_error (file : Option FwStream) (e : OrbitalError)
    (h : innerKernelStream file = .error e) : runPipeline file = .error e := by
  unfold runPipeline
  rw [h]

theorem findEntry_singleton_ne {α β : Type} [DecidableEq α] (key k : α) (v : β)
    (h : key ≠ k) : findEntry key [(k, v)] = none := by
  unfold findEntry
  rw [if_neg h]
  rfl

theorem blsGet_singleton_ne (k : String) (v : FwStream) (key : String)
    (h : key ≠ k) : blsGet (.bls [(k, v)]) key = .error .EntryNotFound := by
  unfold blsGet
  dsimp only
  rw [findEntry_singleton_ne key k v h]

theorem pupGet_singleton_ne (k : Nat) (v : FwStream) (id : Nat)
    (h : id ≠ k) : pupGet (.pup [(k, v)]) id = .error .EntryNotFound := by
  unfold pupGet
  dsimp only
  rw [findEntry_singleton_ne id k v h]

theorem innerKernelStream_bls1_error (fs : FwStream) (e : OrbitalError)
    (h : blsGet fs "PS4UPDATE1.PUP" = .error e) :
    innerKernelStream (some fs) = .error e := by
  unfold innerKernelStream
  dsimp only
  rw [h]

theorem innerKernelStream_pup_error (fs bs : FwStream) (e : OrbitalError)
    (h1 : blsGet fs "PS4UPDATE1.PUP" = .ok bs)
    (h2 : pupGet bs PS4_PUP_ENTRY_COREOS = .error e) :
    innerKernelStream (some fs) = .error e := by
  unfold innerKernelStream
  dsimp only
  rw [h1]
  dsimp only
  rw [h2]

theorem innerKernelStream_ok_chain (fs bs coreos : FwStream)
    (h1 : blsGet fs "PS4UPDATE1.PUP" = .ok bs)
    (h2 : pupGet bs PS4_PUP_ENTRY_COREOS = .ok coreos) :
    innerKernelStream (some fs) = blsGet coreos "80010002" := by
  unfold innerKernelStream
  dsimp only
  rw [h1]
  dsimp only
  rw [h2]

/-- The canonical well-formed four-level fixture with the three fixed keys. -/
def mkFixture (ptype paddr : Nat) (payload : List Byte) : FwStream :=
  .bls [("PS4UPDATE1.PUP",
    .pup [(PS4_PUP_ENTRY_COREOS,
      .bls [("80010002", .self [⟨ptype, paddr, payload⟩])])])]

/-- C4: the pipeline narrows archive → update package → archive → signed
executable in that fixed order with exactly the fixed keys "PS4UPDATE1.PUP",
numeric identifier 5, and "80010002", each level's output stream feeding the
next level: it extracts exactly the payload embedded at that nesting, fails
with `EntryNotFound` when any of the three keys is absent at its level, and
fails when any level's stream is not in the container format that level
expects. -/
theorem pipeline_fixed_keys_and_order :
    (∀ ptype paddr payload, ptype = PT_LOAD →
      runPipeline (some (mkFixture ptype paddr payload)) = .ok (paddr, payload)) ∧
    (∀ name s, name ≠ "PS4UPDATE1.PUP" →
      runPipeline (some (.bls [(name, s)])) = .error .EntryNotFound) ∧
    (∀ id s, id ≠ PS4_PUP_ENTRY_COREOS →
      runPipeline (some (.bls [("PS4UPDATE1.PUP", .pup [(id, s)])])) =
        .error .EntryNotFound) ∧
    (∀ name s, name ≠ "80010002" →
      runPipeline (some (.bls [("PS4UPDATE1.PUP",
        .pup [(PS4_PUP_ENTRY_COREOS, .bls [(name, s)])])])) =
        .error .EntryNotFound) ∧
    (∀ entries, runPipeline (some (.pup entries)) = .error .FormatError) ∧
    (∀ entries, runPipeline (some (.bls [("PS4UPDATE1.PUP", .bls entries)])) =
      .error .FormatError) ∧
    (∀ entries, runPipeline (some (.bls [("PS4UPDATE1.PUP",
      .pup [(PS4_PUP_ENTRY_COREOS, .pup entries)])])) = .error .FormatError) ∧
    (∀ bytes, runPipeline (some (.bls [("PS4UPDATE1.PUP",
      .pup [(PS4_PUP_ENTRY_COREOS, .bls [("80010002", .raw bytes)])])])) =
      .error .FormatError) := by
  refine ⟨?_, ?_, ?_, ?_, ?_, ?_, ?_, ?_⟩
  · intro ptype paddr payload hp
    subst hp
    rfl
  · intro name s hname
    exact runPipeline_inner_error _ _
      (innerKernelStream_bls1_error _ _
        (blsGet_singleton_ne name s _ (fun h => hname h.symm)))
  · intro id s hid
    exact runPipeline_inner_error _ _
      (innerKernelStream_pup_error _ _ _ rfl
        (pupGet_singleton_ne id s _ (fun h => hid h.symm)))
  · intro name s hname
    apply runPipeline_inner_error
    rw [innerKernelStream_ok_chain
      (.bls [("PS4UPDATE1.PUP", .pup [(PS4_PUP_ENTRY_COREOS, .bls [(name, s)])])])
      (.pup [(PS4_PUP_ENTRY_COREOS, .bls [(name, s)])])
      (.bls [(name, s)]) rfl rfl]
    exact blsGet_singleton_ne name s _ (fun h => hname h.symm)
  · intro entries
    rfl
  · intro entries
    rfl
  · intro entries
    rfl
  · intro bytes
    rfl

/-- Witness for C4: extraction and a missed outer key on concrete inputs. -/
theorem pipeline_fixed_keys_witness :
    runPipeline (some (mkFixture PT_LOAD 0x1000 [1, 2, 3])) = .ok (0x1000, [1, 2, 3]) ∧
    runPipeline (some (.bls [("OTHER", .raw [])])) = .error .EntryNotFound :=
  ⟨pipeline_fixed_keys_and_order.1 PT_LOAD 0x1000 [1, 2, 3] rfl,
    pipeline_fixed_keys_and_order.2.1 "OTHER" (.raw []) (by decide)⟩

/-- C8: the version-specific patch step is disabled (`if (0)`) and never a
failure source: the patch conditional is the identity on the machine state, a
successful `recover` reports no error, RAM changes only on the segment's byte
range, and the firmware-shadow store changes only on its `ubios_size`-byte
range. -/
theorem recover_patch_disabled_frame
    (m : PS4State) (file : Option FwStream) (paddr : Nat) (pdata : List Byte)
    (hpipe : runPipeline file = .ok (paddr, pdata))
    (hfit : paddr + pdata.length ≤ ram_size) :
    patchesEnabled = false ∧
    (∀ s pa, (if patchesEnabled then applyPatch s pa else s) = s) ∧
    (recover m file).2 = none ∧
    (∀ a, a < paddr ∨ paddr + pdata.length ≤ a →
      (recover m file).1.ram a = (reset m).ram a) ∧
    (∀ i, i < pdata.length → (recover m file).1.ram (paddr + i) = pdata.getD i 0) ∧
    (∀ i, i < ubios_size → (recover m file).1.ubios i = pdata.getD i 0) ∧
    (∀ i, ubios_size ≤ i → (recover m file).1.ubios i = (reset m).ubios i) := by
  have he := recover_ok_eq m file paddr pdata hpipe hfit
  refine ⟨rfl, fun s pa => rfl, by rw [he], ?_, ?_, ?_, ?_⟩
  · intro a ha
    rw [he]
    show (if paddr ≤ a ∧ a < paddr + pdata.length then pdata.getD (a - paddr) 0
      else m.ram a) = (reset m).ram a
    rw [if_neg (by omega)]
    rfl
  · intro i hi
    rw [he]
    show (if paddr ≤ paddr + i ∧ paddr + i < paddr + pdata.length then
      pdata.getD (paddr + i - paddr) 0 else m.ram (paddr + i)) = _
    rw [if_pos ⟨Nat.le_add_right _ _, by omega⟩, Nat.add_sub_cancel_left]
  · intro i hi
    rw [he]
    show (if 0 ≤ i ∧ i < 0 + ubios_size then pdata.getD (i - 0) 0
      else m.ubios i) = _
    rw [if_pos ⟨Nat.zero_le i, by omega⟩, Nat.sub_zero]
  · intro i hi
    rw [he]
    show (if 0 ≤ i ∧ i < 0 + ubios_size then pdata.getD (i - 0) 0
      else m.ubios i) = (reset m).ubios i
    rw [if_neg (by omega)]
    rfl

/-- Witness for C8 on the concrete fixture. -/
theorem recover_patch_disabled_witness :
    runPipeline (some fixtureC1) = .ok (0x200000, List.replicate 0x80000 0xAB) ∧
    (List.replicate 0x80000 (0xAB : Byte)).length = 0x80000 ∧
    patchesEnabled = false ∧
    (recover constructedState (some fixtureC1)).1.ram 0x1000 =
      (reset constructedState).ram 0x1000 :=
  ⟨rfl, by rw [List.length_replicate], rfl,
    (recover_patch_disabled_frame constructedState (some fixtureC1) 0x200000
      (List.replicate 0x80000 0xAB) rfl
      (by rw [List.length_replicate]; decide)).2.2.2.1 0x1000
      (Or.inl (by norm_num))⟩

/-- C9: the firmware-shadow write of `recover` copies exactly
`ubios_size = 0x80000` bytes starting from the beginning of the extracted
segment buffer, independent of the segment's length, and the source indices
it reads all lie within the segment exactly when the segment is at least
0x80000 bytes long — for every shorter segment some read index falls past
the end of the segment data. -/
theorem shadow_copy_fixed_size_and_bounds
    (m : PS4State) (file : Option FwStream) (paddr : Nat) (pdata : List Byte)
    (hpipe : runPipeline file = .ok (paddr, pdata))
    (hfit : paddr + pdata.length ≤ ram_size) :
    ubios_size = 0x80000 ∧
    (∀ i, i < ubios_size → (recover m file).1.ubios i = pdata.getD i 0) ∧
    (∀ i, ubios_size ≤ i → (recover m file).1.ubios i = (reset m).ubios i) ∧
    ((∀ i, i < ubios_size → i < pdata.length) ↔ ubios_size ≤ pdata.length) := by
  have he := recover_ok_eq m file paddr pdata hpipe hfit
  refine ⟨rfl, ?_, ?_, ?_⟩
  · intro i hi
    rw [he]
    show (if 0 ≤ i ∧ i < 0 + ubios_size then pdata.getD (i - 0) 0
      else m.ubios i) = _
    rw [if_pos ⟨Nat.zero_le i, by omega⟩, Nat.sub_zero]
  · intro i hi
    rw [he]
    show (if 0 ≤ i ∧ i < 0 + ubios_size then pdata.getD (i - 0) 0
      else m.ubios i) = (reset m).ubios i
    rw [if_neg (by omega)]
    rfl
  · constructor
    · intro h
      rcases Nat.lt_or_ge pdata.length ubios_size with hl | hg
      · exact absurd (h pdata.length hl) (lt_irrefl _)
      · exact hg
    · intro h i hi
      omega

/-- A fixture whose single loadable segment is only three bytes long —
shorter than the firmware-shadow region. -/
def fixtureC9 : FwStream :=
  .bls [("PS4UPDATE1.PUP",
    .pup [(PS4_PUP_ENTRY_COREOS,
      .bls [("80010002", .self [⟨PT_LOAD, 0, [1, 2, 3]⟩])])])]

/-- Witness for C9: on a three-byte segment the shadow copy's source reads
are not all in bounds. -/
theorem shadow_copy_witness :
    runPipeline (some fixtureC9) = .ok (0, [1, 2, 3]) ∧
    0 + ([1, 2, 3] : List Byte).length ≤ ram_size ∧
    ¬ (∀ i, i < ubios_size → i < ([1, 2, 3] : List Byte).length) := by
  refine ⟨rfl, by decide, ?_⟩
  intro hall
  have h := (shadow_copy_fixed_size_and_bounds constructedState (some fixtureC9)
    0 [1, 2, 3] rfl (by decide)).2.2.2.mp hall
  simp [ubios_size] at h

end Orbital
